import Mathlib

/-
  Verification of the lama.browser worker message substrate.

  The definitions below are a shallow embedding of the code in
  src/electron-ui/src/components/ChatLayout.tsx (the WorkerClient and the
  worker-side message router of the setup guide embedded there),
  src/unnamed/part_004 (the worker/index.ts initialization gate), and
  src/browser-ui/src/components/StorageWarning.tsx (quota classification,
  warning de-duplication and the periodic check interval).

  JavaScript Map objects are embedded as association lists with the Map's
  set / get / delete semantics; promise settlement is embedded as an
  explicit ledger of outcomes per correlation id; timers are embedded as
  the recorded duration plus an explicit firing step.
-/

namespace Lama

/-! ## Association-list embedding of a JS Map (string keys, unique) -/

/-- Map.get: first entry with the given key, if any. -/
def mapGet {β : Type} (m : List (String × β)) (k : String) : Option β :=
  match m with
  | [] => none
  | (k2, v) :: rest => if k2 = k then some v else mapGet rest k

/-- Map.set: replace the value at an existing key, else append a new entry. -/
def mapSet {β : Type} (m : List (String × β)) (k : String) (v : β) :
    List (String × β) :=
  match m with
  | [] => [(k, v)]
  | (k2, v2) :: rest =>
      if k2 = k then (k, v) :: rest else (k2, v2) :: mapSet rest k v

/-- Map.delete: remove the entry with the given key (keys are unique). -/
def mapDelete {β : Type} (m : List (String × β)) (k : String) :
    List (String × β) :=
  match m with
  | [] => []
  | (k2, v2) :: rest =>
      if k2 = k then rest else (k2, v2) :: mapDelete rest k

theorem mapGet_mapSet_self {β : Type} (m : List (String × β)) (k : String) (v : β) :
    mapGet (mapSet m k v) k = some v := by
  induction m with
  | nil => simp [mapSet, mapGet]
  | cons hd tl ih =>
      obtain ⟨k2, v2⟩ := hd
      by_cases h : k2 = k
      · simp [mapSet, mapGet, h]
      · simp [mapSet, mapGet, h, ih]

theorem mapGet_mapDelete_ne {β : Type} (m : List (String × β)) (a b : String)
    (hab : a ≠ b) : mapGet (mapDelete m b) a = mapGet m a := by
  induction m with
  | nil => simp [mapDelete, mapGet]
  | cons hd tl ih =>
      obtain ⟨k2, v2⟩ := hd
      by_cases h : k2 = b
      · subst h
        have hka : k2 ≠ a := fun h2 => hab h2.symm
        simp [mapDelete, mapGet, hka]
      · by_cases h2 : k2 = a
        · simp [mapDelete, mapGet, h, h2, hab]
        · simp [mapDelete, mapGet, h, h2, ih]

theorem mapDelete_mapSet_of_none {β : Type} (m : List (String × β)) (k : String)
    (v : β) (h : mapGet m k = none) : mapDelete (mapSet m k v) k = m := by
  induction m with
  | nil => simp [mapSet, mapDelete]
  | cons hd tl ih =>
      obtain ⟨k2, v2⟩ := hd
      by_cases hk : k2 = k
      · subst hk
        simp [mapGet] at h
      · simp [mapGet, hk] at h
        simp [mapSet, mapDelete, hk, ih h]

theorem mapGet_append {β : Type} (l1 l2 : List (String × β)) (k : String) :
    mapGet (l1 ++ l2) k =
      match mapGet l1 k with
      | some v => some v
      | none => mapGet l2 k := by
  induction l1 with
  | nil => simp [mapGet]
  | cons hd tl ih =>
      obtain ⟨k2, v2⟩ := hd
      by_cases h : k2 = k
      · simp [mapGet, h]
      · simp [mapGet, h, ih]

/-! ## Wire envelopes (worker-messages types of the setup guide) -/

/-- Error value carried by a failure response (code and message fields;
the optional dev-only stack field is omitted). -/
structure WorkerError where
  code : String
  message : String
deriving Repr, DecidableEq

/-- Request envelope: id, type, payload, timestamp (transferables omitted:
they only affect copy semantics, not any claim). Payloads are a type
parameter, standing for the unknown payload type of the source. -/
structure WorkerRequest (α : Type) where
  id : String
  type : String
  payload : α
  timestamp : Nat
deriving Repr, DecidableEq

/-- Response envelope: id, success, optional data, optional error, timestamp. -/
structure WorkerResponse (α : Type) where
  id : String
  success : Bool
  data : Option α
  error : Option WorkerError
  timestamp : Nat
deriving Repr, DecidableEq

/-! ## Worker-side message router (worker/index.ts of the setup guide)

A handler is an async function from payload to result; a rejected promise
or a thrown Error is embedded as Except.error carrying the error message.
The router is embedded as a total function returning the response envelope
it posts, paired with the number of handler invocations it performed
(0 or 1) so that the never-invoked parts of claims are statable. -/

/-- registerHandler of worker/index.ts: handlers.set(type, handler).
Note there is no occupancy check: setting an existing type replaces it. -/
def registerHandler {α : Type} (handlers : List (String × (α → Except String α)))
    (t : String) (handler : α → Except String α) :
    List (String × (α → Except String α)) :=
  mapSet handlers t handler

/-- The message listener of worker/index.ts: look the handler up by type
(a missing handler throws inside the same try block), run it, and post a
success envelope or - for any caught failure - a failure envelope with
code OPERATION_FAILED and the thrown message. Returns the posted response
and the number of handler invocations. -/
def routeMessage {α : Type} (handlers : List (String × (α → Except String α)))
    (req : WorkerRequest α) (now : Nat) : WorkerResponse α × Nat :=
  match mapGet handlers req.type with
  | none =>
      ({ id := req.id, success := false, data := none,
         error := some { code := "OPERATION_FAILED",
                         message := "No handler registered for type: " ++ req.type },
         timestamp := now }, 0)
  | some handler =>
      match handler req.payload with
      | Except.ok d =>
          ({ id := req.id, success := true, data := some d, error := none,
             timestamp := now }, 1)
      | Except.error msg =>
          ({ id := req.id, success := false, data := none,
             error := some { code := "OPERATION_FAILED", message := msg },
             timestamp := now }, 1)

/-! ## Client correlator (WorkerClient of the setup guide) -/

/-- Pending-call table entry: the source stores resolve, reject and the
timeout handle; settlement is recorded in the ledger below, so the entry
keeps the one datum of the timer, the duration it was armed with. -/
structure PendingCall where
  timeoutMs : Nat
deriving Repr, DecidableEq

/-- How a caller's awaited promise was settled. -/
inductive CallOutcome (α : Type) where
  | resolved (data : Option α)
  | rejected (message : String) (code : Option String)
deriving Repr, DecidableEq

/-- WorkerClient state: whether a worker exists, the pendingRequests map,
and the ledger of settled outcomes per request id. -/
structure ClientState (α : Type) where
  worker : Bool
  pending : List (String × PendingCall)
  settled : List (String × CallOutcome α)
deriving Repr, DecidableEq

/-- WorkerClient.DEFAULT_TIMEOUT, 30 seconds. -/
def DEFAULT_TIMEOUT : Nat := 30000

/-- WorkerClient.send: with no worker it throws synchronously (the Except
error branch - nothing is added to pending and no envelope is produced);
otherwise it registers a pending call whose timer is armed with
DEFAULT_TIMEOUT (send takes no per-call timeout argument) and returns the
request envelope it posts. The fresh random id is passed in by the
environment. -/
def send {α : Type} (s : ClientState α) (reqId reqType : String) (payload : α)
    (now : Nat) : Except String (ClientState α × WorkerRequest α) :=
  if s.worker = false then
    Except.error "Worker not initialized. Call init() first."
  else
    Except.ok
      ({ s with pending := mapSet s.pending reqId { timeoutMs := DEFAULT_TIMEOUT } },
       { id := reqId, type := reqType, payload := payload, timestamp := now })

/-- response.error?.message with the JS || fallback: an absent error or an
empty message yields the fallback text. -/
def errMessage (e : Option WorkerError) : String :=
  match e with
  | some err => if err.message = "" then "Unknown error" else err.message
  | none => "Unknown error"

/-- The outcome WorkerClient.handleResponse settles a matched pending call
with: resolve(response.data) on success, else reject with an Error carrying
the response error message and code. -/
def settleOf {α : Type} (resp : WorkerResponse α) : CallOutcome α :=
  if resp.success then CallOutcome.resolved resp.data
  else CallOutcome.rejected (errMessage resp.error)
    (resp.error.map (fun e => e.code))

/-- WorkerClient.handleResponse: look the pending call up by the response
id; if absent, log and drop (state unchanged); if present, clear its
timeout, delete the entry and settle it. -/
def handleResponse {α : Type} (s : ClientState α) (resp : WorkerResponse α) :
    ClientState α :=
  match mapGet s.pending resp.id with
  | none => s
  | some _ =>
      { s with pending := mapDelete s.pending resp.id,
               settled := s.settled ++ [(resp.id, settleOf resp)] }

/-- The setTimeout callback armed by send for one request: delete the
pending entry and reject with the timeout message. The timer is armed
exactly while the entry is pending (every path that removes the entry also
clears the timer), so the step is guarded on the entry being present. -/
def fireTimeout {α : Type} (s : ClientState α) (reqId reqType : String) :
    ClientState α :=
  match mapGet s.pending reqId with
  | none => s
  | some _ =>
      { s with pending := mapDelete s.pending reqId,
               settled := s.settled ++
                 [(reqId, CallOutcome.rejected ("Request timeout: " ++ reqType) none)] }

/-- WorkerClient.terminate: destroy the worker, reject every pending call
with a worker-terminated error (clearing each timer), and clear the map. -/
def terminate {α : Type} (s : ClientState α) : ClientState α :=
  { worker := false,
    pending := [],
    settled := s.settled ++
      s.pending.map (fun p => (p.1, CallOutcome.rejected "Worker terminated" none)) }

/-! ## Worker initialization gate (worker/index.ts of src/unnamed/part_004)

This variant of the worker entry point keeps an initialized flag; the
designated bootstrap method is the string init. Its envelopes carry either
a result or an error message. -/

/-- Inbound message of the gated worker entry point: id, method, params. -/
structure GateRequest (α : Type) where
  id : String
  method : String
  params : α
deriving Repr, DecidableEq

/-- Result posted by the gated worker: the init acknowledgement object or
a handler value. -/
inductive GateResult (α : Type) where
  | initAck
  | value (v : α)
deriving Repr, DecidableEq

/-- Outbound message of the gated worker entry point. -/
structure GateResponse (α : Type) where
  id : String
  result : Option (GateResult α)
  error : Option String
deriving Repr, DecidableEq

/-- The message listener of the gated worker entry point: the bootstrap
method init (while uninitialized) runs initWorkerCore and acknowledges;
any other method while uninitialized throws Worker-not-initialized, caught
and posted as an error; once initialized, handleMessage dispatches. The
result is the new initialized flag, the posted response, and the number of
handleMessage invocations. -/
def gateStep {α : Type} (initWorkerCore : α → Except String Unit)
    (handleMessage : String → α → Except String α)
    (initialized : Bool) (req : GateRequest α) :
    Bool × GateResponse α × Nat :=
  if req.method = "init" && !initialized then
    match initWorkerCore req.params with
    | Except.ok _ =>
        (true, { id := req.id, result := some GateResult.initAck, error := none }, 0)
    | Except.error msg =>
        (initialized, { id := req.id, result := none, error := some msg }, 0)
  else if !initialized then
    (initialized,
     { id := req.id, result := none, error := some "Worker not initialized" }, 0)
  else
    match handleMessage req.method req.params with
    | Except.ok r =>
        (initialized,
         { id := req.id, result := some (GateResult.value r), error := none }, 1)
    | Except.error msg =>
        (initialized, { id := req.id, result := none, error := some msg }, 1)

/-! ## Storage quota monitor (src/browser-ui/src/components/StorageWarning.tsx) -/

/-- Warning severity of a produced storage warning. -/
inductive WarnLevel where
  | warning
  | critical
deriving Repr, DecidableEq

/-- usagePercent of checkQuota: (usage / quota) * 100 when quota is
positive, else 0. Byte counts are naturals, the percentage is a rational. -/
def usagePercent (usage quota : ℕ) : ℚ :=
  if 0 < quota then ((usage : ℚ) / (quota : ℚ)) * 100 else 0

/-- The warning classification of checkQuota: usagePercent at or above 95
is critical, else at or above 80 is warning, else no warning is produced. -/
def classifyUsage (usage quota : ℕ) : Option WarnLevel :=
  if 95 ≤ usagePercent usage quota then some WarnLevel.critical
  else if 80 ≤ usagePercent usage quota then some WarnLevel.warning
  else none

/-- One emitted warning toast: its level and creation timestamp. -/
structure ToastEntry where
  level : WarnLevel
  timestamp : ℕ
deriving Repr, DecidableEq

/-- The cool-down window of the de-duplication check: 5 minutes. -/
def WARNING_COOLDOWN_MS : ℕ := 5 * 60 * 1000

/-- The periodic check interval passed to setInterval: 5 minutes. -/
def CHECK_INTERVAL_MS : ℕ := 5 * 60 * 1000

/-- hasRecentWarning of checkQuota: some toast of the same level was
created within the cool-down window before now. -/
def hasRecentWarning (toasts : List ToastEntry) (lvl : WarnLevel) (now : ℕ) : Bool :=
  toasts.any (fun t => decide (t.level = lvl ∧ now - t.timestamp < WARNING_COOLDOWN_MS))

/-- One run of checkQuota over the toast list: classify the reading; on no
warning the list is unchanged; otherwise append a toast of that level
unless one of the same level is within the cool-down window. -/
def checkQuotaStep (toasts : List ToastEntry) (usage quota now : ℕ) :
    List ToastEntry :=
  match classifyUsage usage quota with
  | none => toasts
  | some lvl =>
      if hasRecentWarning toasts lvl now then toasts
      else toasts ++ [{ level := lvl, timestamp := now }]

/-- The quota classification as the specification words it (below 80
percent nothing, 80 to 95 percent warning, strictly above 95 percent
critical); stated only to compare with classifyUsage from the source. -/
def classifyUsageSpec (usage quota : ℕ) : Option WarnLevel :=
  if 95 < usagePercent usage quota then some WarnLevel.critical
  else if 80 ≤ usagePercent usage quota then some WarnLevel.warning
  else none

/-- The per-call-overridable send the specification describes: identical to
send except that the pending call is armed with a caller-chosen window;
stated only to compare with send from the source, which takes no such
argument and always arms DEFAULT_TIMEOUT. -/
def sendSpec {α : Type} (s : ClientState α) (reqId reqType : String) (payload : α)
    (now timeoutMs : Nat) : Except String (ClientState α × WorkerRequest α) :=
  if s.worker = false then
    Except.error "Worker not initialized. Call init() first."
  else
    Except.ok
      ({ s with pending := mapSet s.pending reqId { timeoutMs := timeoutMs } },
       { id := reqId, type := reqType, payload := payload, timestamp := now })

/-! ## Claim theorems -/

/-- Claim C1: with two calls pending, delivering the two response envelopes
in the opposite order from the requests settles each caller exactly with
the data of the envelope carrying its own id, never swapped; and a
response envelope whose id matches no pending call is dropped, leaving the
whole client state (every pending entry and every outcome) unchanged. -/
theorem c1_out_of_order_correlation {α : Type} (s : ClientState α) (a b : String)
    (pa pb : PendingCall) (ra rb : WorkerResponse α)
    (hab : a ≠ b)
    (hpa : mapGet s.pending a = some pa) (hpb : mapGet s.pending b = some pb)
    (hsa : mapGet s.settled a = none) (hsb : mapGet s.settled b = none)
    (hra : ra.id = a) (hrb : rb.id = b)
    (hras : ra.success = true) (hrbs : rb.success = true) :
    (mapGet (handleResponse (handleResponse s rb) ra).settled a
        = some (CallOutcome.resolved ra.data)
     ∧ mapGet (handleResponse (handleResponse s rb) ra).settled b
        = some (CallOutcome.resolved rb.data))
    ∧ ∀ r : WorkerResponse α, mapGet s.pending r.id = none →
        handleResponse s r = s := by
  have hob : settleOf rb = CallOutcome.resolved rb.data := by
    simp [settleOf, hrbs]
  have hoa : settleOf ra = CallOutcome.resolved ra.data := by
    simp [settleOf, hras]
  have hget1 : mapGet s.pending rb.id = some pb := by rw [hrb]; exact hpb
  have h1 : handleResponse s rb =
      { s with pending := mapDelete s.pending b,
               settled := s.settled ++ [(b, settleOf rb)] } := by
    unfold handleResponse
    rw [hget1, hrb]
  have hget2 : mapGet (mapDelete s.pending b) a = some pa := by
    rw [mapGet_mapDelete_ne s.pending a b hab]
    exact hpa
  have h2 : handleResponse (handleResponse s rb) ra =
      { s with pending := mapDelete (mapDelete s.pending b) a,
               settled := (s.settled ++ [(b, settleOf rb)]) ++ [(a, settleOf ra)] } := by
    rw [h1]
    unfold handleResponse
    simp only [hra, hget2]
  have hba : b ≠ a := fun hcontra => hab (Eq.symm hcontra)
  refine ⟨⟨?_, ?_⟩, ?_⟩
  · rw [h2]
    show mapGet ((s.settled ++ [(b, settleOf rb)]) ++ [(a, settleOf ra)]) a
      = some (CallOutcome.resolved ra.data)
    rw [mapGet_append, mapGet_append, hsa]
    simp [mapGet, hba, hoa]
  · rw [h2]
    show mapGet ((s.settled ++ [(b, settleOf rb)]) ++ [(a, settleOf ra)]) b
      = some (CallOutcome.resolved rb.data)
    rw [mapGet_append, mapGet_append, hsb]
    simp [mapGet, hob]
  · intro r hr
    unfold handleResponse
    rw [hr]

/-- Concrete out-of-order client state for the c1 witness. -/
def s0c1 : ClientState Nat :=
  { worker := true,
    pending := [("a", { timeoutMs := 30000 }), ("b", { timeoutMs := 30000 })],
    settled := [] }

/-- Concrete response envelope for request a, arriving second. -/
def rac1 : WorkerResponse Nat :=
  { id := "a", success := true, data := some 1, error := none, timestamp := 5 }

/-- Concrete response envelope for request b, arriving first. -/
def rbc1 : WorkerResponse Nat :=
  { id := "b", success := true, data := some 2, error := none, timestamp := 4 }

/-- Witness for c1_out_of_order_correlation on a concrete two-call state. -/
theorem c1_witness :
    mapGet (handleResponse (handleResponse s0c1 rbc1) rac1).settled "a"
      = some (CallOutcome.resolved (some 1))
    ∧ mapGet (handleResponse (handleResponse s0c1 rbc1) rac1).settled "b"
      = some (CallOutcome.resolved (some 2)) :=
  (c1_out_of_order_correlation s0c1 "a" "b"
    { timeoutMs := 30000 } { timeoutMs := 30000 } rac1 rbc1
    (by decide) (by decide) (by decide) (by decide) (by decide)
    rfl rfl rfl rfl).1

/-- Claim C2: when a looked-up handler throws (its deferred result
rejects), the router posts a failure envelope with code OPERATION_FAILED
carrying the thrown message; and for every request whatsoever the posted
envelope has data present iff success and error present iff not success
(the router is total, so no handler exception escapes it). -/
theorem c2_router_normalizes_failures {α : Type}
    (handlers : List (String × (α → Except String α))) (req : WorkerRequest α)
    (now : Nat) (h : α → Except String α) (msg : String)
    (hget : mapGet handlers req.type = some h)
    (hthrow : h req.payload = Except.error msg) :
    (routeMessage handlers req now).1 =
      { id := req.id, success := false, data := none,
        error := some { code := "OPERATION_FAILED", message := msg },
        timestamp := now }
    ∧ ∀ (hs : List (String × (α → Except String α))) (r : WorkerRequest α) (n : Nat),
        ((routeMessage hs r n).1.data.isSome = true ↔
          (routeMessage hs r n).1.success = true)
        ∧ ((routeMessage hs r n).1.error.isSome = true ↔
          (routeMessage hs r n).1.success = false) := by
  constructor
  · simp only [routeMessage, hget, hthrow]
  · intro hs r n
    unfold routeMessage
    cases hg : mapGet hs r.type with
    | none => simp
    | some hh =>
        cases hr : hh r.payload with
        | ok d => simp [hr]
        | error m => simp [hr]

/-- A concrete always-throwing handler. -/
def hThrow : Nat → Except String Nat := fun _ => Except.error "boom"

/-- Witness for c2_router_normalizes_failures on a throwing handler. -/
theorem c2_witness :
    (routeMessage (registerHandler [] "ai:chat" hThrow)
        { id := "r1", type := "ai:chat", payload := (0 : Nat), timestamp := 7 } 7).1 =
      { id := "r1", success := false, data := none,
        error := some { code := "OPERATION_FAILED", message := "boom" },
        timestamp := 7 } :=
  (c2_router_normalizes_failures (registerHandler [] "ai:chat" hThrow)
    { id := "r1", type := "ai:chat", payload := 0, timestamp := 7 } 7 hThrow "boom"
    (mapGet_mapSet_self [] "ai:chat" hThrow) rfl).1

/-- A first registered handler, echoing its payload. -/
def hFirst : Nat → Except String Nat := fun n => Except.ok n

/-- A second handler registered under the same type, distinguishable from
the first by its output. -/
def hSecond : Nat → Except String Nat := fun n => Except.ok (n + 1)

/-- Claim C3 counterexample: registering a second handler under an
already-registered type does not throw (registerHandler is a plain
Map.set with no occupancy check), and afterwards the router invokes the
second handler, not the first: on payload 41 the response data is 42
(hSecond's output), not 41 (hFirst's output). -/
theorem c3_counterexample :
    (routeMessage
        (registerHandler (registerHandler [] "chat:sendMessage" hFirst)
          "chat:sendMessage" hSecond)
        { id := "r1", type := "chat:sendMessage", payload := 41, timestamp := 0 } 0).1.data
      = some 42
    ∧ hFirst 41 = Except.ok 41
    ∧ (some 42 : Option Nat) ≠ some 41 := by
  refine ⟨rfl, rfl, by decide⟩

/-- Claim C3 (amended): registering a second handler under an
already-registered type does not fail; it silently replaces the first
registration, and from then on the second handler is the one the router
invokes for that type. -/
theorem c3_registration_overwrites {α : Type}
    (m : List (String × (α → Except String α))) (t : String)
    (h1 h2 : α → Except String α) (p d : α) (hp : h2 p = Except.ok d)
    (rid : String) (ts now : Nat) :
    mapGet (registerHandler (registerHandler m t h1) t h2) t = some h2
    ∧ (routeMessage (registerHandler (registerHandler m t h1) t h2)
        { id := rid, type := t, payload := p, timestamp := ts } now).1.data = some d := by
  have hg : mapGet (registerHandler (registerHandler m t h1) t h2) t = some h2 :=
    mapGet_mapSet_self (mapSet m t h1) t h2
  refine ⟨hg, ?_⟩
  unfold routeMessage
  simp only [hg, hp]

/-- Witness for c3_registration_overwrites on the two concrete handlers. -/
theorem c3_witness :
    mapGet (registerHandler (registerHandler [] "chat:sendMessage" hFirst)
      "chat:sendMessage" hSecond) "chat:sendMessage" = some hSecond
    ∧ (routeMessage (registerHandler (registerHandler [] "chat:sendMessage" hFirst)
        "chat:sendMessage" hSecond)
        { id := "r2", type := "chat:sendMessage", payload := 41, timestamp := 0 } 0).1.data
      = some 42 :=
  c3_registration_overwrites [] "chat:sendMessage" hFirst hSecond 41 42 rfl "r2" 0 0

/-- Claim C4 counterexample: for a request whose type names no registered
handler, the router's failure envelope carries code OPERATION_FAILED (the
missing-handler throw is caught by the generic catch), not
HANDLER_NOT_FOUND as the claim states. -/
theorem c4_counterexample :
    ((routeMessage ([] : List (String × (Nat → Except String Nat)))
        { id := "r1", type := "nope:nope", payload := 0, timestamp := 0 } 0).1.error.map
        (fun e => e.code)) = some "OPERATION_FAILED"
    ∧ (some "OPERATION_FAILED" : Option String) ≠ some "HANDLER_NOT_FOUND" := by
  refine ⟨rfl, by decide⟩

/-- Claim C4 (amended): for every request whose type names no registered
handler, the router invokes no handler (invocation count 0) and responds
with a failure envelope whose error code is OPERATION_FAILED and whose
message names the missing type; delivering that envelope to the waiting
client rejects the caller with that code. -/
theorem c4_unknown_type {α : Type}
    (handlers : List (String × (α → Except String α))) (req : WorkerRequest α)
    (now : Nat) (hnone : mapGet handlers req.type = none) :
    (routeMessage handlers req now).1 =
      { id := req.id, success := false, data := none,
        error := some { code := "OPERATION_FAILED",
                        message := "No handler registered for type: " ++ req.type },
        timestamp := now }
    ∧ (routeMessage handlers req now).2 = 0
    ∧ ∀ (s : ClientState α) (pc : PendingCall),
        mapGet s.pending req.id = some pc →
        mapGet s.settled req.id = none →
        mapGet (handleResponse s (routeMessage handlers req now).1).settled req.id
          = some (CallOutcome.rejected
              ("No handler registered for type: " ++ req.type)
              (some "OPERATION_FAILED")) := by
  have hroute : (routeMessage handlers req now).1 =
      { id := req.id, success := false, data := none,
        error := some { code := "OPERATION_FAILED",
                        message := "No handler registered for type: " ++ req.type },
        timestamp := now } := by
    simp only [routeMessage, hnone]
  have hcount : (routeMessage handlers req now).2 = 0 := by
    simp only [routeMessage, hnone]
  refine ⟨hroute, hcount, ?_⟩
  intro s pc hpc hsnone
  have hmsg : ("No handler registered for type: " ++ req.type) ≠ "" := by
    intro hcontra
    have hlen := congrArg String.length hcontra
    rw [String.length_append] at hlen
    simp at hlen
    exact absurd hlen.1 (by decide)
  rw [hroute]
  unfold handleResponse
  simp only [hpc]
  show mapGet (s.settled ++ [(req.id, _)]) req.id = _
  rw [mapGet_append, hsnone]
  simp [mapGet, settleOf, errMessage, hmsg]

/-- Concrete one-call client state awaiting request r9. -/
def s0c4 : ClientState Nat :=
  { worker := true, pending := [("r9", { timeoutMs := 30000 })], settled := [] }

/-- Witness for c4_unknown_type at a concrete unknown type. -/
theorem c4_witness :
    (routeMessage ([] : List (String × (Nat → Except String Nat)))
        { id := "r9", type := "nope:nope", payload := 0, timestamp := 3 } 3).1 =
      { id := "r9", success := false, data := none,
        error := some { code := "OPERATION_FAILED",
                        message := "No handler registered for type: " ++ "nope:nope" },
        timestamp := 3 }
    ∧ mapGet (handleResponse s0c4
        (routeMessage ([] : List (String × (Nat → Except String Nat)))
          { id := "r9", type := "nope:nope", payload := 0, timestamp := 3 } 3).1).settled "r9"
      = some (CallOutcome.rejected ("No handler registered for type: " ++ "nope:nope")
          (some "OPERATION_FAILED")) :=
  ⟨(c4_unknown_type ([] : List (String × (Nat → Except String Nat)))
      { id := "r9", type := "nope:nope", payload := 0, timestamp := 3 } 3 rfl).1,
   (c4_unknown_type ([] : List (String × (Nat → Except String Nat)))
      { id := "r9", type := "nope:nope", payload := 0, timestamp := 3 } 3 rfl).2.2
      s0c4 { timeoutMs := 30000 } (by decide) (by decide)⟩

/-- Claim C5: while the worker is not initialized, any request whose
method is not the bootstrap method init is answered immediately with the
Worker-not-initialized failure, the initialized flag stays false, and
handleMessage is never invoked (invocation count 0). -/
theorem c5_not_ready_gate {α : Type} (initWorkerCore : α → Except String Unit)
    (handleMessage : String → α → Except String α) (req : GateRequest α)
    (hm : req.method ≠ "init") :
    gateStep initWorkerCore handleMessage false req =
      (false, { id := req.id, result := none, error := some "Worker not initialized" },
       0) := by
  unfold gateStep
  simp [hm]

/-- Witness for c5_not_ready_gate on a concrete non-bootstrap request. -/
theorem c5_witness :
    gateStep (fun _ => Except.ok ()) (fun _ p => Except.ok p) false
      { id := "r1", method := "chat:getMessages", params := (0 : Nat) } =
      (false, { id := "r1", result := none, error := some "Worker not initialized" },
       0) :=
  c5_not_ready_gate (fun _ => Except.ok ()) (fun _ p => Except.ok p)
    { id := "r1", method := "chat:getMessages", params := (0 : Nat) } (by decide)

/-- An idle initialized client with no pending calls, for counterexamples. -/
def s0ok : ClientState Nat := { worker := true, pending := [], settled := [] }

/-- Claim C6 counterexample: the per-call override the claim describes
cannot be realized by the code: sendSpec (the specification's send, which
accepts a per-call window) armed with 5000 yields a pending call of 5000,
while the code's send on the same input always arms 30000 - send takes no
timeout argument at all. -/
theorem c6_counterexample :
    sendSpec s0ok "r1" "chat:sendMessage" 0 0 5000 =
      Except.ok ({ worker := true, pending := [("r1", { timeoutMs := 5000 })],
                   settled := [] },
        { id := "r1", type := "chat:sendMessage", payload := 0, timestamp := 0 })
    ∧ send s0ok "r1" "chat:sendMessage" 0 0 =
      Except.ok ({ worker := true, pending := [("r1", { timeoutMs := 30000 })],
                   settled := [] },
        { id := "r1", type := "chat:sendMessage", payload := 0, timestamp := 0 })
    ∧ ({ timeoutMs := 5000 } : PendingCall) ≠ { timeoutMs := 30000 } := by
  refine ⟨rfl, rfl, by decide⟩

/-- Claim C6 (amended): every send() call arms its pending call with the
fixed default window DEFAULT_TIMEOUT = 30000 (there is no per-call
override); when the window elapses with no matching response the caller is
rejected with the request-timeout error and its pending entry removed,
while another pending call is untouched and still resolves with its own
data when its response arrives. -/
theorem c6_timeout_independence {α : Type} (s : ClientState α)
    (reqId reqType : String) (payload : α) (now : Nat)
    (s1 : ClientState α) (req : WorkerRequest α)
    (b : String) (pb : PendingCall) (rb : WorkerResponse α)
    (hsend : send s reqId reqType payload now = Except.ok (s1, req))
    (hfresh : mapGet s.pending reqId = none)
    (hab : reqId ≠ b)
    (hpb : mapGet s.pending b = some pb)
    (hsettled : mapGet s.settled reqId = none)
    (hsb : mapGet s.settled b = none)
    (hrb : rb.id = b) (hrbs : rb.success = true) :
    mapGet s1.pending reqId = some { timeoutMs := DEFAULT_TIMEOUT }
    ∧ DEFAULT_TIMEOUT = 30000
    ∧ mapGet (fireTimeout s1 reqId reqType).pending reqId = none
    ∧ mapGet (fireTimeout s1 reqId reqType).settled reqId
        = some (CallOutcome.rejected ("Request timeout: " ++ reqType) none)
    ∧ mapGet (fireTimeout s1 reqId reqType).pending b = some pb
    ∧ mapGet (handleResponse (fireTimeout s1 reqId reqType) rb).settled b
        = some (CallOutcome.resolved rb.data) := by
  have hworker : s.worker = true := by
    by_contra hw
    have hw2 : s.worker = false := by
      cases hws : s.worker
      · rfl
      · exact absurd hws hw
    unfold send at hsend
    rw [hw2] at hsend
    simp at hsend
  have hp1 : s1.pending = mapSet s.pending reqId { timeoutMs := DEFAULT_TIMEOUT } := by
    unfold send at hsend
    rw [hworker] at hsend
    simp at hsend
    rw [← hsend.1]
  have hsettled1 : s1.settled = s.settled := by
    unfold send at hsend
    rw [hworker] at hsend
    simp at hsend
    rw [← hsend.1]
  have hget1 : mapGet s1.pending reqId = some { timeoutMs := DEFAULT_TIMEOUT } := by
    rw [hp1]
    exact mapGet_mapSet_self s.pending reqId { timeoutMs := DEFAULT_TIMEOUT }
  have hdel : mapDelete s1.pending reqId = s.pending := by
    rw [hp1]
    exact mapDelete_mapSet_of_none s.pending reqId { timeoutMs := DEFAULT_TIMEOUT } hfresh
  have hfire : fireTimeout s1 reqId reqType =
      { s1 with pending := s.pending,
                settled := s1.settled ++
                  [(reqId, CallOutcome.rejected ("Request timeout: " ++ reqType) none)] } := by
    unfold fireTimeout
    rw [hget1, hdel]
  refine ⟨hget1, rfl, ?_, ?_, ?_, ?_⟩
  · rw [hfire]
    show mapGet s.pending reqId = none
    exact hfresh
  · rw [hfire, hsettled1]
    show mapGet (s.settled ++ [(reqId, _)]) reqId = _
    rw [mapGet_append, hsettled]
    simp [mapGet]
  · rw [hfire]
    exact hpb
  · have hgetb : mapGet (fireTimeout s1 reqId reqType).pending rb.id = some pb := by
      rw [hfire, hrb]
      exact hpb
    unfold handleResponse
    rw [hgetb]
    show mapGet ((fireTimeout s1 reqId reqType).settled ++ [(rb.id, settleOf rb)]) b
      = some (CallOutcome.resolved rb.data)
    rw [hfire, hsettled1, hrb]
    show mapGet ((s.settled ++ [(reqId, _)]) ++ [(b, settleOf rb)]) b = _
    rw [mapGet_append, mapGet_append, hsb]
    simp [mapGet, hab, settleOf, hrbs]

/-- Concrete state with one pending call b, for the c6 witness. -/
def s0c6 : ClientState Nat :=
  { worker := true, pending := [("b", { timeoutMs := 30000 })], settled := [] }

/-- Concrete response envelope for the surviving call b. -/
def rbc6 : WorkerResponse Nat :=
  { id := "b", success := true, data := some 9, error := none, timestamp := 8 }

/-- Witness for c6_timeout_independence on a concrete timed-out call a and
a surviving call b. -/
theorem c6_witness :
    mapGet (fireTimeout { s0c6 with
        pending := mapSet s0c6.pending "a" { timeoutMs := DEFAULT_TIMEOUT } } "a" "ai:chat").settled "a"
      = some (CallOutcome.rejected ("Request timeout: " ++ "ai:chat") none)
    ∧ mapGet (handleResponse (fireTimeout { s0c6 with
        pending := mapSet s0c6.pending "a" { timeoutMs := DEFAULT_TIMEOUT } } "a" "ai:chat") rbc6).settled "b"
      = some (CallOutcome.resolved (some 9)) :=
  ⟨(c6_timeout_independence s0c6 "a" "ai:chat" 0 2
      { s0c6 with pending := mapSet s0c6.pending "a" { timeoutMs := DEFAULT_TIMEOUT } }
      { id := "a", type := "ai:chat", payload := 0, timestamp := 2 }
      "b" { timeoutMs := 30000 } rbc6 rfl (by decide) (by decide) (by decide)
      (by decide) (by decide) rfl rfl).2.2.2.1,
   (c6_timeout_independence s0c6 "a" "ai:chat" 0 2
      { s0c6 with pending := mapSet s0c6.pending "a" { timeoutMs := DEFAULT_TIMEOUT } }
      { id := "a", type := "ai:chat", payload := 0, timestamp := 2 }
      "b" { timeoutMs := 30000 } rbc6 rfl (by decide) (by decide) (by decide)
      (by decide) (by decide) rfl rfl).2.2.2.2.2⟩

/-- Claim C7: terminate rejects every outstanding pending call with the
worker-terminated error, empties the pending table, is idempotent, and no
response delivered afterwards changes the state (every response is
dropped against the empty table). -/
theorem c7_terminate_drains {α : Type} (s : ClientState α) :
    (terminate s).pending = []
    ∧ (terminate s).settled = s.settled ++
        s.pending.map (fun p => (p.1, CallOutcome.rejected "Worker terminated" none))
    ∧ terminate (terminate s) = terminate s
    ∧ ∀ resp : WorkerResponse α, handleResponse (terminate s) resp = terminate s := by
  refine ⟨rfl, rfl, ?_, ?_⟩
  · simp [terminate]
  · intro resp
    unfold handleResponse
    have hget : mapGet (terminate s).pending resp.id = none := rfl
    rw [hget]

/-- Claim C10: calling send with no worker (before init, or after
terminate set the worker to null) throws synchronously with the
Worker-not-initialized error; the error branch carries no successor state
and no request envelope, so no pending entry is created, no timeout is
armed and no message is posted. -/
theorem c10_send_without_worker {α : Type} (s : ClientState α)
    (reqId reqType : String) (payload : α) (now : Nat)
    (h : s.worker = false) :
    send s reqId reqType payload now =
      Except.error "Worker not initialized. Call init() first." := by
  unfold send
  rw [h]
  rfl

/-- Witness for c10_send_without_worker on a never-initialized client. -/
theorem c10_witness :
    send ({ worker := false, pending := [], settled := [] } : ClientState Nat)
      "r1" "onecore:getContacts" 0 1 =
      Except.error "Worker not initialized. Call init() first." :=
  c10_send_without_worker { worker := false, pending := [], settled := [] }
    "r1" "onecore:getContacts" 0 1 rfl

/-- Claim C8 counterexample: at usage 19 of quota 20 the percentage is
exactly 95; the component classifies it critical (its critical branch
tests 95 or more), while the claim prescribes warning for 80 percent up
to 95 percent and critical only above 95 percent (the reading
classifyUsageSpec captures). -/
theorem c8_counterexample :
    usagePercent 19 20 = 95
    ∧ classifyUsage 19 20 = some WarnLevel.critical
    ∧ classifyUsageSpec 19 20 = some WarnLevel.warning
    ∧ some WarnLevel.critical ≠ some WarnLevel.warning := by
  have h : usagePercent 19 20 = 95 := by norm_num [usagePercent]
  refine ⟨h, ?_, ?_, by decide⟩
  · unfold classifyUsage
    rw [h]
    norm_num
  · unfold classifyUsageSpec
    rw [h]
    norm_num

/-- Claim C8 (amended): for every measured storage state with a positive
quota the monitor computes the percentage as usage divided by quota (times
100) and classifies it: below 80 percent no warning, at or above 80 and
below 95 percent a warning-level warning, at or above 95 percent a
critical-level warning. -/
theorem c8_quota_classification (usage quota : ℕ) (hq : 0 < quota) :
    usagePercent usage quota = ((usage : ℚ) / (quota : ℚ)) * 100
    ∧ (usagePercent usage quota < 80 → classifyUsage usage quota = none)
    ∧ (80 ≤ usagePercent usage quota → usagePercent usage quota < 95 →
        classifyUsage usage quota = some WarnLevel.warning)
    ∧ (95 ≤ usagePercent usage quota → classifyUsage usage quota = some WarnLevel.critical) := by
  refine ⟨by simp [usagePercent, hq], ?_, ?_, ?_⟩
  · intro h
    unfold classifyUsage
    rw [if_neg (by linarith), if_neg (by linarith)]
  · intro h80 h95
    unfold classifyUsage
    rw [if_neg (by linarith), if_pos h80]
  · intro h
    unfold classifyUsage
    rw [if_pos h]

/-- Witness for c8_quota_classification at readings of 50, 85 and 96
percent of a quota of 100. -/
theorem c8_witness :
    classifyUsage 50 100 = none
    ∧ classifyUsage 85 100 = some WarnLevel.warning
    ∧ classifyUsage 96 100 = some WarnLevel.critical :=
  ⟨(c8_quota_classification 50 100 (by norm_num)).2.1 (by norm_num [usagePercent]),
   (c8_quota_classification 85 100 (by norm_num)).2.2.1
     (by norm_num [usagePercent]) (by norm_num [usagePercent]),
   (c8_quota_classification 96 100 (by norm_num)).2.2.2 (by norm_num [usagePercent])⟩

/-- Claim C9: a run of checkQuota that classifies the reading at some
level leaves the toast list unchanged when a toast of the same level lies
within the 5-minute cool-down window before now (in particular for any
same-level member of the list inside the window), appends the new toast
exactly when no such toast exists, and both the cool-down window and the
periodic check interval default to 5 minutes. -/
theorem c9_warning_cooldown (toasts : List ToastEntry) (usage quota now : ℕ)
    (lvl : WarnLevel) (hc : classifyUsage usage quota = some lvl) :
    (hasRecentWarning toasts lvl now = true →
        checkQuotaStep toasts usage quota now = toasts)
    ∧ (hasRecentWarning toasts lvl now = false →
        checkQuotaStep toasts usage quota now =
          toasts ++ [{ level := lvl, timestamp := now }])
    ∧ (∀ t : ToastEntry, t ∈ toasts → t.level = lvl →
        now - t.timestamp < WARNING_COOLDOWN_MS →
        checkQuotaStep toasts usage quota now = toasts)
    ∧ WARNING_COOLDOWN_MS = 5 * 60 * 1000
    ∧ CHECK_INTERVAL_MS = 5 * 60 * 1000 := by
  refine ⟨?_, ?_, ?_, rfl, rfl⟩
  · intro h
    unfold checkQuotaStep
    rw [hc]
    simp [h]
  · intro h
    unfold checkQuotaStep
    rw [hc]
    simp [h]
  · intro t hmem hlvl hwin
    have h : hasRecentWarning toasts lvl now = true := by
      unfold hasRecentWarning
      rw [List.any_eq_true]
      exact ⟨t, hmem, by simp [hlvl, hwin]⟩
    unfold checkQuotaStep
    rw [hc]
    simp [h]

/-- Witness for c9_warning_cooldown: a warning-level reading is not
re-emitted while a warning toast from 1 second ago is in the window, and
is emitted onto an empty toast list. -/
theorem c9_witness :
    checkQuotaStep [{ level := WarnLevel.warning, timestamp := 0 }] 85 100 1000
      = [{ level := WarnLevel.warning, timestamp := 0 }]
    ∧ checkQuotaStep [] 85 100 1000
      = [{ level := WarnLevel.warning, timestamp := 1000 }] :=
  ⟨(c9_warning_cooldown [{ level := WarnLevel.warning, timestamp := 0 }] 85 100 1000
      WarnLevel.warning (by norm_num [classifyUsage, usagePercent])).1 (by decide),
   (c9_warning_cooldown [] 85 100 1000
      WarnLevel.warning (by norm_num [classifyUsage, usagePercent])).2.1 rfl⟩

end Lama
